import Mathlib

/-!
Shallow embedding of the rent-vs-buy calculator (`src/calculator.ts`,
bundled into `src/chart.ts`).  Machine floats are modelled by `ℚ`; the
`number | null` return of `findCrossoverYear` by `Option ℚ`; the
`for` loops by structural recursion (`calcLoop`) and `Function.iterate`.
-/

/-- The `CalculatorInputs` interface of `calculator.ts`. -/
structure CalculatorInputs where
  purchasePrice : ℚ
  downPaymentPercent : ℚ
  mortgageRate : ℚ
  monthlyRent : ℚ
  homeAppreciationRate : ℚ
  rentGrowthRate : ℚ
  investmentReturnRate : ℚ
  propertyTaxRate : ℚ
  hoaMonthly : ℚ
  maintenanceRate : ℚ
  closingCostRate : ℚ
  sellingCostRate : ℚ
  insuranceAnnual : ℚ
deriving Repr, DecidableEq

/-- The `YearlyData` interface of `calculator.ts`. -/
structure YearlyData where
  year : ℚ
  buyNetWorth : ℚ
  rentNetWorth : ℚ
  homeValue : ℚ
  mortgageBalance : ℚ
  homeEquity : ℚ
  rentingInvestments : ℚ
  annualRent : ℚ
  annualOwnershipCost : ℚ
deriving Repr, DecidableEq

/-- `calculateMonthlyMortgage(principal, annualRate, years = 30)`:
monthly payment (principal + interest); the term `years` is a whole
number of years (every call site uses the default 30). -/
def calculateMonthlyMortgage (principal annualRate : ℚ) (years : ℕ := 30) : ℚ :=
  let monthlyRate := annualRate / 12
  let numPayments := years * 12
  if monthlyRate = 0 then
    principal / numPayments
  else
    principal * monthlyRate * (1 + monthlyRate) ^ numPayments /
      ((1 + monthlyRate) ^ numPayments - 1)

/-- `calculateMortgageBalance(principal, annualRate, monthsPaid, years = 30)`:
remaining balance after `monthsPaid` months. -/
def calculateMortgageBalance (principal annualRate : ℚ) (monthsPaid : ℕ)
    (years : ℕ := 30) : ℚ :=
  let monthlyRate := annualRate / 12
  let monthlyPayment := calculateMonthlyMortgage principal annualRate years
  if monthlyRate = 0 then
    principal - monthlyPayment * monthsPaid
  else
    max 0 (principal * (1 + monthlyRate) ^ monthsPaid -
      monthlyPayment * ((1 + monthlyRate) ^ monthsPaid - 1) / monthlyRate)

/-- `calculateProp13Tax(purchasePrice, year, taxRate)`: assessed value grows
2%/year from the purchase price; tax is the assessed value times the rate. -/
def calculateProp13Tax (purchasePrice : ℚ) (year : ℕ) (taxRate : ℚ) : ℚ :=
  let assessedValue := purchasePrice * (1.02 : ℚ) ^ year
  assessedValue * taxRate

/-- The insurance estimate local to `calculateNetWorth`: the explicit
`insuranceAnnual` if positive, else 0.35% of the home value. -/
def getAnnualInsurance (inputs : CalculatorInputs) (homeValue : ℚ) : ℚ :=
  if inputs.insuranceAnnual > 0 then inputs.insuranceAnnual else homeValue * (0.0035 : ℚ)

/-- The mutable state threaded through the yearly loop of
`calculateNetWorth`: `rentingInvestments` and `currentMonthlyRent`. -/
structure SimState where
  rentingInvestments : ℚ
  currentMonthlyRent : ℚ
deriving Repr, DecidableEq

/-- The body of `for (let year = 1; year <= years; year++)` in
`calculateNetWorth`, as structural recursion on the number of remaining
iterations.  `la`, `cc`, `mm` are the loop-invariant `loanAmount`,
`closingCosts` and `monthlyMortgage`; the inner 12-month loop is
`Function.iterate` of add-savings-then-grow. -/
def calcLoop (inputs : CalculatorInputs) (la cc mm : ℚ) :
    ℕ → ℕ → SimState → List YearlyData
  | _, 0, _ => []
  | year, n + 1, st =>
    let homeValue := inputs.purchasePrice * (1 + inputs.homeAppreciationRate) ^ year
    let mortgageBalance := calculateMortgageBalance la inputs.mortgageRate (year * 12)
    let annualMortgage := mm * 12
    let annualPropertyTax :=
      calculateProp13Tax inputs.purchasePrice (year - 1) inputs.propertyTaxRate
    let annualHoa := inputs.hoaMonthly * 12
    let annualMaintenance := homeValue * inputs.maintenanceRate
    let annualInsurance := getAnnualInsurance inputs homeValue
    let annualOwnershipCost :=
      annualMortgage + annualPropertyTax + annualHoa + annualMaintenance + annualInsurance
    let homeEquity := homeValue - mortgageBalance
    let sellingCosts := homeValue * inputs.sellingCostRate
    let buyNetWorth := homeEquity - sellingCosts - cc
    let annualRent := st.currentMonthlyRent * 12
    let monthlyOwnershipCost := annualOwnershipCost / 12
    let monthlySavings := monthlyOwnershipCost - st.currentMonthlyRent
    let ri :=
      (fun x => (x + monthlySavings) * (1 + inputs.investmentReturnRate / 12))^[12]
        st.rentingInvestments
    { year := year
      buyNetWorth := buyNetWorth
      rentNetWorth := ri
      homeValue := homeValue
      mortgageBalance := mortgageBalance
      homeEquity := homeEquity
      rentingInvestments := ri
      annualRent := annualRent
      annualOwnershipCost := annualOwnershipCost } ::
      calcLoop inputs la cc mm (year + 1) n
        { rentingInvestments := ri
          currentMonthlyRent := st.currentMonthlyRent * (1 + inputs.rentGrowthRate) }

/-- `calculateNetWorth(inputs, years)`.  The `years` argument is an
integer (the TS loop `for (year = 1; year <= years; ...)` runs
`max 0 years` times, which `Int.toNat` gives exactly). -/
def calculateNetWorth (inputs : CalculatorInputs) (years : ℤ) : List YearlyData :=
  let downPayment := inputs.purchasePrice * (inputs.downPaymentPercent / 100)
  let loanAmount := inputs.purchasePrice - downPayment
  let closingCosts := inputs.purchasePrice * inputs.closingCostRate
  let monthlyMortgage := calculateMonthlyMortgage loanAmount inputs.mortgageRate
  let initialHomeValue := inputs.purchasePrice
  let rentingInvestments := downPayment + closingCosts
  let initialSellingCosts := initialHomeValue * inputs.sellingCostRate
  { year := 0
    buyNetWorth := downPayment - initialSellingCosts - closingCosts
    rentNetWorth := rentingInvestments
    homeValue := initialHomeValue
    mortgageBalance := loanAmount
    homeEquity := downPayment
    rentingInvestments := rentingInvestments
    annualRent := 0
    annualOwnershipCost := closingCosts } ::
    calcLoop inputs loanAmount closingCosts monthlyMortgage 1 years.toNat
      { rentingInvestments := rentingInvestments
        currentMonthlyRent := inputs.monthlyRent }

/-- `findCrossoverYear(data)`: scan consecutive pairs, return the linearly
interpolated crossover at the first pair where buy overtakes rent. -/
def findCrossoverYear : List YearlyData → Option ℚ
  | prev :: curr :: rest =>
    if prev.buyNetWorth ≤ prev.rentNetWorth ∧ curr.rentNetWorth < curr.buyNetWorth then
      some (prev.year +
        (prev.rentNetWorth - prev.buyNetWorth) /
          (curr.buyNetWorth - curr.rentNetWorth + prev.rentNetWorth - prev.buyNetWorth))
    else findCrossoverYear (curr :: rest)
  | _ => none

/-- Restatement of `findCrossoverYear` with the interpolation written as in
the spec: `t = prev.year + (prev.rent − prev.buy) /
((curr.buy − prev.buy) − (curr.rent − prev.rent))`. -/
def findCrossoverYearSpec : List YearlyData → Option ℚ
  | prev :: curr :: rest =>
    if prev.buyNetWorth ≤ prev.rentNetWorth ∧ curr.rentNetWorth < curr.buyNetWorth then
      some (prev.year +
        (prev.rentNetWorth - prev.buyNetWorth) /
          ((curr.buyNetWorth - prev.buyNetWorth) -
            (curr.rentNetWorth - prev.rentNetWorth)))
    else findCrossoverYearSpec (curr :: rest)
  | _ => none

/-- A consecutive pair at which buy overtakes rent. -/
def isTransition (p c : YearlyData) : Prop :=
  p.buyNetWorth ≤ p.rentNetWorth ∧ c.rentNetWorth < c.buyNetWorth

instance (p c : YearlyData) : Decidable (isTransition p c) := by
  unfold isTransition; infer_instance

/-- A record with only the fields `findCrossoverYear` reads (the test
suite builds such records with `as any`); the rest are zero. -/
def mkRecord (y b r : ℚ) : YearlyData :=
  { year := y, buyNetWorth := b, rentNetWorth := r, homeValue := 0,
    mortgageBalance := 0, homeEquity := 0, rentingInvestments := 0,
    annualRent := 0, annualOwnershipCost := 0 }

/-- The test suite's crossover example: buy = [100, 180, 260],
rent = [200, 220, 240] at years 0, 1, 2. -/
def crossoverExample : List YearlyData :=
  [mkRecord 0 100 200, mkRecord 1 180 220, mkRecord 2 260 240]

/-- The repository test suite's base scenario. -/
def scenarioInputs : CalculatorInputs :=
  { purchasePrice := 1500000, downPaymentPercent := 20, mortgageRate := 0.065,
    monthlyRent := 4000, homeAppreciationRate := 0.04, rentGrowthRate := 0.03,
    investmentReturnRate := 0.07, propertyTaxRate := 0.0115, hoaMonthly := 0,
    maintenanceRate := 0.01, closingCostRate := 0.025, sellingCostRate := 0.06,
    insuranceAnnual := 0 }

/-- The relation between consecutive records that C4 asserts: the later
record's rent-side balance is 12 iterations of add-then-grow from the
earlier one's, the monthly saving being that year's
`annualOwnershipCost / 12` minus that year's current monthly rent
(`annualRent / 12`), held fixed over the 12 months. -/
def rentStep (inputs : CalculatorInputs) (p c : YearlyData) : Prop :=
  c.rentNetWorth =
    (fun x => (x + (c.annualOwnershipCost / 12 - c.annualRent / 12)) *
      (1 + inputs.investmentReturnRate / 12))^[12] p.rentNetWorth


/-! ### Lemmas about `findCrossoverYear` -/

/-- The two interpolation denominators (the code's and the spec's) agree,
so the scan and its spec restatement agree everywhere. -/
lemma findCrossoverYear_eq_spec :
    ∀ data, findCrossoverYear data = findCrossoverYearSpec data := by
  intro data
  induction data with
  | nil => rfl
  | cons prev rest ih =>
    cases rest with
    | nil => rfl
    | cons curr rest' =>
      rw [findCrossoverYear, findCrossoverYearSpec]
      split_ifs with h
      · have hd : curr.buyNetWorth - curr.rentNetWorth +
            prev.rentNetWorth - prev.buyNetWorth =
            (curr.buyNetWorth - prev.buyNetWorth) -
              (curr.rentNetWorth - prev.rentNetWorth) := by ring
        rw [hd]
      · exact ih

/-- `findCrossoverYear` returns `none` exactly when no consecutive pair is a
transition. -/
lemma findCrossoverYear_none_iff :
    ∀ data, findCrossoverYear data = none ↔
      List.Chain' (fun p c => ¬ isTransition p c) data := by
  intro data
  induction data with
  | nil => simp [findCrossoverYear]
  | cons prev rest ih =>
    cases rest with
    | nil => simp [findCrossoverYear]
    | cons curr rest' =>
      rw [findCrossoverYear, List.chain'_cons]
      split_ifs with h
      · simp [isTransition, h]
      · rw [ih]
        simp [isTransition, h]

/-- On a list that starts with a transition-free run `l1 ++ [prev]` followed
by a transition `(prev, curr)`, the scan reports exactly that first
transition, interpolated. -/
lemma findCrossoverYear_first :
    ∀ (l1 : List YearlyData) (prev curr : YearlyData) (l2 : List YearlyData),
    List.Chain' (fun p c => ¬ isTransition p c) (l1 ++ [prev]) →
    isTransition prev curr →
    findCrossoverYear (l1 ++ prev :: curr :: l2) =
      some (prev.year +
        (prev.rentNetWorth - prev.buyNetWorth) /
          (curr.buyNetWorth - curr.rentNetWorth +
            prev.rentNetWorth - prev.buyNetWorth)) := by
  intro l1
  induction l1 with
  | nil =>
    intro prev curr l2 _ ht
    rw [List.nil_append, findCrossoverYear, if_pos ⟨ht.1, ht.2⟩]
  | cons a l ih =>
    intro prev curr l2 hpre ht
    cases l with
    | nil =>
      have hna : ¬ isTransition a prev := (List.chain'_cons.mp hpre).1
      rw [List.cons_append, List.nil_append, findCrossoverYear,
        if_neg (fun hc => hna ⟨hc.1, hc.2⟩)]
      exact ih prev curr l2 (List.chain'_singleton prev) ht
    | cons b l' =>
      have hna : ¬ isTransition a b := (List.chain'_cons.mp hpre).1
      have hrest := (List.chain'_cons.mp hpre).2
      rw [List.cons_append, List.cons_append, findCrossoverYear,
        if_neg (fun hc => hna ⟨hc.1, hc.2⟩)]
      exact ih prev curr l2 hrest ht

/-- A rent-favoring list gives a transition-free chain. -/
lemma chain_of_rent_ahead :
    ∀ data : List YearlyData,
    (∀ r ∈ data, r.buyNetWorth < r.rentNetWorth) →
    List.Chain' (fun p c => ¬ isTransition p c) data := by
  intro data
  induction data with
  | nil => intro _; exact List.chain'_nil
  | cons a rest ih =>
    intro h
    cases rest with
    | nil => exact List.chain'_singleton a
    | cons b rest' =>
      rw [List.chain'_cons]
      constructor
      · intro ht
        exact absurd (h b (by simp)) (not_lt.mpr ht.2.le)
      · exact ih fun r hr => h r (List.mem_cons_of_mem a hr)

/-- C1: `findCrossoverYear` scans consecutive pairs in order and at the
first transition pair returns the interpolated year
`prev.year + (prev.rent − prev.buy) / ((curr.buy − prev.buy) − (curr.rent − prev.rent))`
(this is `findCrossoverYearSpec`, which agrees with the code's denominator
everywhere and reports only the first transition); it returns `none`
exactly when no consecutive pair is a transition, in particular when the
buy side is ahead at every record. -/
theorem crossover_scan_matches_spec :
    (∀ data, findCrossoverYear data = findCrossoverYearSpec data) ∧
    (∀ data, findCrossoverYear data = none ↔
      List.Chain' (fun p c => ¬ isTransition p c) data) ∧
    (∀ (l1 : List YearlyData) (prev curr : YearlyData) (l2 : List YearlyData),
      List.Chain' (fun p c => ¬ isTransition p c) (l1 ++ [prev]) →
      isTransition prev curr →
      findCrossoverYear (l1 ++ prev :: curr :: l2) =
        some (prev.year +
          (prev.rentNetWorth - prev.buyNetWorth) /
            ((curr.buyNetWorth - prev.buyNetWorth) -
              (curr.rentNetWorth - prev.rentNetWorth)))) := by
  refine ⟨findCrossoverYear_eq_spec, findCrossoverYear_none_iff, ?_⟩
  intro l1 prev curr l2 hpre ht
  rw [findCrossoverYear_first l1 prev curr l2 hpre ht]
  have hd : curr.buyNetWorth - curr.rentNetWorth +
      prev.rentNetWorth - prev.buyNetWorth =
      (curr.buyNetWorth - prev.buyNetWorth) -
        (curr.rentNetWorth - prev.rentNetWorth) := by ring
  rw [hd]

/-- C9 counterexample: at the pair buy = (100, 200), rent = (100, 150),
years (0, 1), the transition condition holds (`prev.buy ≤ prev.rent` with
equality) and `findCrossoverYear` returns exactly `0 = prev.year`, which is
not strictly between `prev.year = 0` and `curr.year = 1`. -/
theorem crossover_boundary_cex :
    isTransition (mkRecord 0 100 100) (mkRecord 1 200 150) ∧
    findCrossoverYear [mkRecord 0 100 100, mkRecord 1 200 150] = some 0 ∧
    ¬ ((mkRecord 0 100 100).year < 0 ∧ (0 : ℚ) < (mkRecord 1 200 150).year) := by
  refine ⟨?_, ?_, ?_⟩
  · norm_num [isTransition, mkRecord]
  · norm_num [findCrossoverYear, mkRecord]
  · norm_num [mkRecord]

/-- C9 (amended): at the first transition pair `(prev, curr)` with
`prev.year + 1 ≤ curr.year`, `findCrossoverYear` returns a value `v` with
`prev.year ≤ v < curr.year`, strictly above `prev.year` whenever
`prev.buyNetWorth < prev.rentNetWorth`; on a sequence where rent strictly
exceeds buy at every record it returns `none`; on the example
buy = [100, 180, 260], rent = [200, 220, 240] at years 0, 1, 2 it returns
a value strictly between 1 and 2. -/
theorem crossover_value_bounds (l1 : List YearlyData) (prev curr : YearlyData)
    (l2 : List YearlyData)
    (hpre : List.Chain' (fun p c => ¬ isTransition p c) (l1 ++ [prev]))
    (ht : isTransition prev curr) (hy : prev.year + 1 ≤ curr.year) :
    (∃ v, findCrossoverYear (l1 ++ prev :: curr :: l2) = some v ∧
      prev.year ≤ v ∧ v < curr.year ∧
      (prev.buyNetWorth < prev.rentNetWorth → prev.year < v)) ∧
    (∀ data : List YearlyData,
      (∀ r ∈ data, r.buyNetWorth < r.rentNetWorth) →
      findCrossoverYear data = none) ∧
    (∃ v, findCrossoverYear crossoverExample = some v ∧ 1 < v ∧ v < 2) := by
  refine ⟨?_, ?_,
    ⟨5/3, by norm_num [findCrossoverYear, crossoverExample, mkRecord],
      by norm_num, by norm_num⟩⟩
  · have ha : 0 ≤ prev.rentNetWorth - prev.buyNetWorth := by
      have := ht.1; linarith
    have hb : 0 < curr.buyNetWorth - curr.rentNetWorth := by
      have := ht.2; linarith
    have hd : 0 < curr.buyNetWorth - curr.rentNetWorth +
        prev.rentNetWorth - prev.buyNetWorth := by linarith
    refine ⟨_, findCrossoverYear_first l1 prev curr l2 hpre ht, ?_, ?_, ?_⟩
    · have : 0 ≤ (prev.rentNetWorth - prev.buyNetWorth) /
          (curr.buyNetWorth - curr.rentNetWorth +
            prev.rentNetWorth - prev.buyNetWorth) := div_nonneg ha hd.le
      linarith
    · have hlt : (prev.rentNetWorth - prev.buyNetWorth) /
          (curr.buyNetWorth - curr.rentNetWorth +
            prev.rentNetWorth - prev.buyNetWorth) < 1 :=
        (div_lt_one hd).mpr (by linarith)
      linarith
    · intro hstrict
      have : 0 < (prev.rentNetWorth - prev.buyNetWorth) /
          (curr.buyNetWorth - curr.rentNetWorth +
            prev.rentNetWorth - prev.buyNetWorth) :=
        div_pos (by linarith) hd
      linarith
  · intro data h
    exact (findCrossoverYear_none_iff data).mpr (chain_of_rent_ahead data h)

/-- C9 witness: the amended bound theorem applied to the example sequence,
whose first transition pair is (year 1, year 2). -/
theorem crossover_value_bounds_witness :
    (∃ v, findCrossoverYear
        ([mkRecord 0 100 200] ++ mkRecord 1 180 220 :: mkRecord 2 260 240 :: []) =
        some v ∧
      (mkRecord 1 180 220).year ≤ v ∧ v < (mkRecord 2 260 240).year ∧
      ((mkRecord 1 180 220).buyNetWorth < (mkRecord 1 180 220).rentNetWorth →
        (mkRecord 1 180 220).year < v)) ∧
    (∀ data : List YearlyData,
      (∀ r ∈ data, r.buyNetWorth < r.rentNetWorth) →
      findCrossoverYear data = none) ∧
    (∃ v, findCrossoverYear crossoverExample = some v ∧ 1 < v ∧ v < 2) :=
  crossover_value_bounds [mkRecord 0 100 200] (mkRecord 1 180 220)
    (mkRecord 2 260 240) []
    (by norm_num [List.chain'_cons, List.chain'_singleton, isTransition, mkRecord])
    (by norm_num [isTransition, mkRecord]) (by norm_num [mkRecord])

/-! ### Lemmas about the amortization functions -/

/-- C8: zero interest takes the straight-line special case:
`calculateMonthlyMortgage(P, 0, n) = P / (n*12)` exactly, the balance at
zero rate is `principal − payment × monthsPaid`, and a 360,000 principal
over 30 years pays exactly 1000 a month. -/
theorem zero_rate_straight_line (P : ℚ) (n m : ℕ) :
    calculateMonthlyMortgage P 0 n = P / ((n : ℚ) * 12) ∧
    calculateMortgageBalance P 0 m n =
      P - calculateMonthlyMortgage P 0 n * (m : ℚ) ∧
    calculateMonthlyMortgage 360000 0 30 = 1000 := by
  refine ⟨?_, ?_, by norm_num [calculateMonthlyMortgage]⟩
  · simp [calculateMonthlyMortgage]
  · simp [calculateMortgageBalance]

/-- C6 counterexample: at zero rate the straight-line branch is not clamped,
so one month past the 30-year term a 360,000 loan has balance −1000 < 0. -/
theorem mortgage_balance_negative_cex :
    calculateMortgageBalance 360000 0 361 30 < 0 := by
  norm_num [calculateMortgageBalance, calculateMonthlyMortgage]

/-- Algebraic core of the declining-balance branch: for a nonzero monthly
rate `d` the balance is linear in `c = (1+d)^m`. -/
lemma balance_linear_core (P pay c d : ℚ) (hd : d ≠ 0) :
    P * c - pay * (c - 1) / d = c * (P - pay / d) + pay / d := by
  field_simp
  ring

/-- The declining-balance branch, written as a linear function of `q^m`. -/
lemma mortgageBalance_linear_form (P r : ℚ) (t m : ℕ) (hr : r / 12 ≠ 0) :
    calculateMortgageBalance P r m t =
      max 0 ((1 + r / 12) ^ m *
          (P - calculateMonthlyMortgage P r t / (r / 12)) +
        calculateMonthlyMortgage P r t / (r / 12)) := by
  simp only [calculateMortgageBalance, if_neg hr]
  rw [balance_linear_core P (calculateMonthlyMortgage P r t) ((1 + r / 12) ^ m)
    (r / 12) hr]

/-- Algebraic core of the payment-to-principal comparison. -/
lemma payment_coeff_core (P d q : ℚ) (hd : d ≠ 0) (hq : q - 1 ≠ 0) :
    P - P * d * q / (q - 1) / d = -P / (q - 1) := by
  field_simp
  ring

/-- The coefficient of `q^m` in the declining balance is `−P/(q^N − 1) ≤ 0`
for a nonnegative principal, a positive rate and a term of at least a year. -/
lemma monthlyMortgage_coeff_nonpos (P r : ℚ) (t : ℕ)
    (hP : 0 ≤ P) (hr : 0 < r) (ht : 1 ≤ t) :
    P - calculateMonthlyMortgage P r t / (r / 12) ≤ 0 := by
  have hmr : 0 < r / 12 := by positivity
  have hq : 1 < 1 + r / 12 := by linarith
  have hqN : 1 < (1 + r / 12) ^ (t * 12) := one_lt_pow₀ hq (by omega)
  simp only [calculateMonthlyMortgage, if_neg (ne_of_gt hmr)]
  rw [payment_coeff_core P (r / 12) ((1 + r / 12) ^ (t * 12)) (ne_of_gt hmr)
    (by linarith)]
  rw [neg_div]
  exact neg_nonpos.mpr (div_nonneg hP (by linarith))

/-- C6 (amended): for a nonnegative principal, a nonnegative rate and a term
of at least one year, `calculateMortgageBalance` is non-increasing in
`monthsPaid`; for a positive rate its result is clamped and never negative;
at zero rate the straight-line branch is unclamped and is nonnegative
through the end of the term (`monthsPaid ≤ 12 × term`). -/
theorem mortgage_balance_monotone (P r : ℚ) (t m m1 m2 : ℕ)
    (hP : 0 ≤ P) (hr : 0 ≤ r) (ht : 1 ≤ t) (hm : m1 ≤ m2) :
    calculateMortgageBalance P r m2 t ≤ calculateMortgageBalance P r m1 t ∧
    (0 < r → 0 ≤ calculateMortgageBalance P r m t) ∧
    (r = 0 → (m : ℚ) ≤ (t : ℚ) * 12 → 0 ≤ calculateMortgageBalance P r m t) := by
  have ht12 : (0 : ℚ) < (t : ℚ) * 12 := by
    have : (1 : ℚ) ≤ (t : ℚ) := by exact_mod_cast ht
    linarith
  rcases eq_or_lt_of_le hr with h0 | hpos
  · have h0' : r = 0 := h0.symm
    subst h0'
    refine ⟨?_, fun habs => absurd habs (lt_irrefl 0), fun _ hterm => ?_⟩
    · simp only [calculateMortgageBalance, calculateMonthlyMortgage, zero_div,
        if_pos rfl, if_true]
      have hdiv : 0 ≤ P / ((t * 12 : ℕ) : ℚ) := div_nonneg hP (by positivity)
      have hcast : (m1 : ℚ) ≤ (m2 : ℚ) := by exact_mod_cast hm
      have := mul_le_mul_of_nonneg_left hcast hdiv
      linarith
    · simp only [calculateMortgageBalance, calculateMonthlyMortgage, zero_div,
        if_pos rfl, if_true]
      have hcast : ((t * 12 : ℕ) : ℚ) = (t : ℚ) * 12 := by push_cast; ring
      rw [hcast]
      have key : P / ((t : ℚ) * 12) * (m : ℚ) ≤ P / ((t : ℚ) * 12) * ((t : ℚ) * 12) :=
        mul_le_mul_of_nonneg_left hterm (div_nonneg hP ht12.le)
      rw [div_mul_cancel₀ P (ne_of_gt ht12)] at key
      linarith
  · have hmr : 0 < r / 12 := by positivity
    have hmr' : r / 12 ≠ 0 := ne_of_gt hmr
    refine ⟨?_, fun _ => ?_, fun habs => absurd habs (ne_of_gt hpos)⟩
    · rw [mortgageBalance_linear_form P r t m1 hmr',
        mortgageBalance_linear_form P r t m2 hmr']
      apply max_le_max le_rfl
      have hc := monthlyMortgage_coeff_nonpos P r t hP hpos ht
      have hq1 : (1 : ℚ) ≤ 1 + r / 12 := by linarith
      have hpow : (1 + r / 12) ^ m1 ≤ (1 + r / 12) ^ m2 :=
        pow_le_pow_right₀ hq1 hm
      have := mul_le_mul_of_nonpos_right hpow hc
      linarith
    · rw [mortgageBalance_linear_form P r t m hmr']
      exact le_max_left 0 _

/-- C6 witness: the monotonicity and clamping bounds at the repository's
test scenario (a 360,000 loan at 6% over 30 years, months 0 to 360). -/
theorem mortgage_balance_monotone_witness :
    calculateMortgageBalance 360000 (6/100) 360 30 ≤
      calculateMortgageBalance 360000 (6/100) 0 30 ∧
    (0 < (6/100 : ℚ) → 0 ≤ calculateMortgageBalance 360000 (6/100) 12 30) ∧
    ((6/100 : ℚ) = 0 → (12 : ℚ) ≤ (30 : ℚ) * 12 →
      0 ≤ calculateMortgageBalance 360000 (6/100) 12 30) :=
  mortgage_balance_monotone 360000 (6/100) 30 12 0 360
    (by norm_num) (by norm_num) (by norm_num) (by norm_num)

/-! ### Lemmas about `calculateNetWorth` -/

/-- The year fields produced by the loop are `year, year+1, ...` in order. -/
lemma calcLoop_map_year (inputs : CalculatorInputs) (la cc mm : ℚ) :
    ∀ (n year : ℕ) (st : SimState),
    (calcLoop inputs la cc mm year n st).map YearlyData.year =
      (List.range' year n).map (fun k : ℕ => (k : ℚ)) := by
  intro n
  induction n with
  | zero => intro year st; rfl
  | succ n ih =>
    intro year st
    simp only [calcLoop, List.map_cons, List.range'_succ]
    rw [ih]

/-- C2: for every nonnegative integer horizon `k`, `calculateNetWorth`
returns exactly `k + 1` records whose year fields are `0, 1, ..., k` in
strictly increasing order. -/
theorem yearly_record_count (inputs : CalculatorInputs) (k : ℕ) :
    (calculateNetWorth inputs (k : ℤ)).length = k + 1 ∧
    (calculateNetWorth inputs (k : ℤ)).map YearlyData.year =
      (List.range (k + 1)).map (fun n : ℕ => (n : ℚ)) ∧
    ((calculateNetWorth inputs (k : ℤ)).map YearlyData.year).Pairwise (· < ·) := by
  have hmap : (calculateNetWorth inputs (k : ℤ)).map YearlyData.year =
      (List.range (k + 1)).map (fun n : ℕ => (n : ℚ)) := by
    rw [List.range_eq_range', List.range'_succ]
    simp only [calculateNetWorth, List.map_cons, Int.toNat_natCast]
    rw [calcLoop_map_year]
    norm_num
  refine ⟨?_, hmap, ?_⟩
  · have hlen := congrArg List.length hmap
    simpa using hlen
  · rw [hmap]
    exact (List.pairwise_lt_range (k + 1)).map (fun n : ℕ => (n : ℚ))
      (fun a b h => by simpa using Nat.cast_lt.mpr h)

/-- C2 witness: three records for a two-year horizon, years 0, 1, 2. -/
theorem yearly_record_count_witness :
    (calculateNetWorth scenarioInputs ((2 : ℕ) : ℤ)).length = 2 + 1 ∧
    (calculateNetWorth scenarioInputs ((2 : ℕ) : ℤ)).map YearlyData.year =
      (List.range (2 + 1)).map (fun n : ℕ => (n : ℚ)) ∧
    ((calculateNetWorth scenarioInputs ((2 : ℕ) : ℤ)).map YearlyData.year).Pairwise
      (· < ·) :=
  yearly_record_count scenarioInputs 2

/-- C3: the year-0 record has buy net worth
`downPayment − price × sellingRate − price × closingRate`, rent net worth
`downPayment + closingCosts`, home value = price, mortgage balance =
price − downPayment, home equity = downPayment, annual rent 0 and annual
ownership cost = closing costs; on the test scenario (price 1,500,000,
20% down, 2.5% closing, 6% selling) that is 172,500 vs 337,500. -/
theorem year_zero_record (inputs : CalculatorInputs) (years : ℤ) :
    (calculateNetWorth inputs years).head? = some
      { year := 0
        buyNetWorth := inputs.purchasePrice * (inputs.downPaymentPercent / 100) -
          inputs.purchasePrice * inputs.sellingCostRate -
          inputs.purchasePrice * inputs.closingCostRate
        rentNetWorth := inputs.purchasePrice * (inputs.downPaymentPercent / 100) +
          inputs.purchasePrice * inputs.closingCostRate
        homeValue := inputs.purchasePrice
        mortgageBalance := inputs.purchasePrice -
          inputs.purchasePrice * (inputs.downPaymentPercent / 100)
        homeEquity := inputs.purchasePrice * (inputs.downPaymentPercent / 100)
        rentingInvestments := inputs.purchasePrice * (inputs.downPaymentPercent / 100) +
          inputs.purchasePrice * inputs.closingCostRate
        annualRent := 0
        annualOwnershipCost := inputs.purchasePrice * inputs.closingCostRate } ∧
    (calculateNetWorth scenarioInputs 0).head?.map YearlyData.buyNetWorth =
      some 172500 ∧
    (calculateNetWorth scenarioInputs 0).head?.map YearlyData.rentNetWorth =
      some 337500 := by
  refine ⟨rfl, ?_, ?_⟩ <;> norm_num [calculateNetWorth, scenarioInputs]

/-- C10: a negative `years` runs the yearly loop zero times, and the result
is the one-element list holding only the year-0 record. -/
theorem negative_years_single_record (inputs : CalculatorInputs) (years : ℤ)
    (h : years < 0) :
    calculateNetWorth inputs years = [
      { year := 0
        buyNetWorth := inputs.purchasePrice * (inputs.downPaymentPercent / 100) -
          inputs.purchasePrice * inputs.sellingCostRate -
          inputs.purchasePrice * inputs.closingCostRate
        rentNetWorth := inputs.purchasePrice * (inputs.downPaymentPercent / 100) +
          inputs.purchasePrice * inputs.closingCostRate
        homeValue := inputs.purchasePrice
        mortgageBalance := inputs.purchasePrice -
          inputs.purchasePrice * (inputs.downPaymentPercent / 100)
        homeEquity := inputs.purchasePrice * (inputs.downPaymentPercent / 100)
        rentingInvestments := inputs.purchasePrice * (inputs.downPaymentPercent / 100) +
          inputs.purchasePrice * inputs.closingCostRate
        annualRent := 0
        annualOwnershipCost := inputs.purchasePrice * inputs.closingCostRate }] := by
  have h0 : years.toNat = 0 := Int.toNat_of_nonpos h.le
  simp only [calculateNetWorth, h0, calcLoop]

/-- C10 witness: the horizon −1 on the test scenario yields exactly the
year-0 record. -/
theorem negative_years_single_record_witness :
    calculateNetWorth scenarioInputs (-1) = [
      { year := 0, buyNetWorth := 172500, rentNetWorth := 337500,
        homeValue := 1500000, mortgageBalance := 1200000, homeEquity := 300000,
        rentingInvestments := 337500, annualRent := 0,
        annualOwnershipCost := 37500 }] := by
  have h := negative_years_single_record scenarioInputs (-1) (by norm_num)
  rw [h]
  norm_num [scenarioInputs]

/-- Iterating add-then-grow depends only on the value of the added term. -/
lemma iterate_savings_congr (a b q x : ℚ) (h : a = b) :
    (fun z => (z + a) * q)^[12] x = (fun z => (z + b) * q)^[12] x := by rw [h]

/-- Every record the loop emits relates to its predecessor by `rentStep`. -/
lemma calcLoop_rent_chain (inputs : CalculatorInputs) (la cc mm : ℚ) :
    ∀ (n year : ℕ) (st : SimState) (p : YearlyData),
    p.rentNetWorth = st.rentingInvestments →
    List.Chain' (rentStep inputs) (p :: calcLoop inputs la cc mm year n st) := by
  intro n
  induction n with
  | zero => intro year st p _; exact List.chain'_singleton p
  | succ n ih =>
    intro year st p hp
    simp only [calcLoop, List.chain'_cons]
    refine ⟨?_, ih (year + 1) _ _ rfl⟩
    unfold rentStep
    dsimp only
    rw [hp]
    exact iterate_savings_congr _ _ _ _ (by ring)

/-- C4: along the output of `calculateNetWorth`, each year's rent net worth
is exactly 12 iterations of add-then-grow from the previous record's, with
the addend `annualOwnershipCost/12 − annualRent/12` fixed for the year. -/
theorem rent_side_monthly_fold (inputs : CalculatorInputs) (years : ℤ) :
    List.Chain' (rentStep inputs) (calculateNetWorth inputs years) := by
  simp only [calculateNetWorth]
  exact calcLoop_rent_chain inputs _ _ _ years.toNat 1 _ _ rfl

/-- The state-independent fields of the record at offset `i` of the loop
started at `year`: its year, home value, mortgage balance (a 30-year
amortization of the loan) and annual ownership cost decomposition. -/
lemma calcLoop_get (inputs : CalculatorInputs) (la cc mm : ℚ) :
    ∀ (n year i : ℕ) (st : SimState), i < n →
    ∃ r, (calcLoop inputs la cc mm year n st)[i]? = some r ∧
      r.year = ((year + i : ℕ) : ℚ) ∧
      r.homeValue =
        inputs.purchasePrice * (1 + inputs.homeAppreciationRate) ^ (year + i) ∧
      r.mortgageBalance =
        calculateMortgageBalance la inputs.mortgageRate ((year + i) * 12) 30 ∧
      r.annualOwnershipCost = mm * 12 +
        calculateProp13Tax inputs.purchasePrice (year + i - 1)
          inputs.propertyTaxRate +
        inputs.hoaMonthly * 12 + r.homeValue * inputs.maintenanceRate +
        getAnnualInsurance inputs r.homeValue := by
  intro n
  induction n with
  | zero => intro year i st h; exact absurd h (Nat.not_lt_zero i)
  | succ n ih =>
    intro year i st h
    cases i with
    | zero =>
      simp only [calcLoop, List.getElem?_cons_zero, Nat.add_zero]
      exact ⟨_, rfl, rfl, rfl, rfl, rfl⟩
    | succ i =>
      simp only [calcLoop, List.getElem?_cons_succ]
      have he : year + (i + 1) = year + 1 + i := by omega
      rw [he]
      exact ih (year + 1) i _ (by omega)

/-- A record at an index within range does not change when the loop runs
longer: the loop is deterministic in its starting state. -/
lemma calcLoop_get_stable (inputs : CalculatorInputs) (la cc mm : ℚ) :
    ∀ (i n m year : ℕ) (st : SimState), i < n → n ≤ m →
    (calcLoop inputs la cc mm year m st)[i]? =
      (calcLoop inputs la cc mm year n st)[i]? := by
  intro i
  induction i with
  | zero =>
    intro n m year st hn hm
    cases n with
    | zero => omega
    | succ n =>
      cases m with
      | zero => omega
      | succ m => simp only [calcLoop, List.getElem?_cons_zero]
  | succ i ih =>
    intro n m year st hn hm
    cases n with
    | zero => omega
    | succ n =>
      cases m with
      | zero => omega
      | succ m =>
        simp only [calcLoop, List.getElem?_cons_succ]
        exact ih n m (year + 1) _ (by omega) (by omega)

/-- C5: for every simulated year `y ≥ 1`, the property-tax component of that
year's annual ownership cost is `purchasePrice × 1.02^(y−1) × propertyTaxRate`
(the assessment of year `y − 1`, growing at a fixed 2% that is independent
of the home-appreciation input); and `calculateProp13Tax` computes exactly
`purchasePrice × 1.02^year × taxRate`. -/
theorem property_tax_prior_year (inputs : CalculatorInputs) (years : ℤ) (y : ℕ)
    (h1 : 1 ≤ y) (h2 : (y : ℤ) ≤ years) :
    (∃ r, (calculateNetWorth inputs years)[y]? = some r ∧
      r.annualOwnershipCost =
        calculateMonthlyMortgage
          (inputs.purchasePrice -
            inputs.purchasePrice * (inputs.downPaymentPercent / 100))
          inputs.mortgageRate 30 * 12 +
        inputs.purchasePrice * (1.02 : ℚ) ^ (y - 1) * inputs.propertyTaxRate +
        inputs.hoaMonthly * 12 + r.homeValue * inputs.maintenanceRate +
        getAnnualInsurance inputs r.homeValue) ∧
    (∀ (pp rate : ℚ) (j : ℕ),
      calculateProp13Tax pp j rate = pp * (1.02 : ℚ) ^ j * rate) := by
  refine ⟨?_, fun pp rate j => rfl⟩
  obtain ⟨y', rfl⟩ : ∃ y', y = y' + 1 := ⟨y - 1, by omega⟩
  obtain ⟨r, hr, hy, hv, hb, hc⟩ :=
    calcLoop_get inputs _ _ _ years.toNat 1 y' _ (by omega)
  refine ⟨r, ?_, ?_⟩
  · simp only [calculateNetWorth, List.getElem?_cons_succ]
    exact hr
  · rw [hc]
    have e1 : 1 + y' - 1 = y' := by omega
    have e2 : y' + 1 - 1 = y' := by omega
    rw [e1, e2]
    rfl

/-- C7: the amortization term inside `calculateNetWorth` is 30 years no
matter the projection horizon: every year-`y` record's mortgage balance is
the 30-year declining balance after `y×12` months, and the record at index
`y` is unchanged by extending the horizon. -/
theorem amortization_term_thirty (inputs : CalculatorInputs) (years : ℤ) (y : ℕ)
    (h1 : 1 ≤ y) (h2 : (y : ℤ) ≤ years) :
    (∃ r, (calculateNetWorth inputs years)[y]? = some r ∧
      r.mortgageBalance = calculateMortgageBalance
        (inputs.purchasePrice -
          inputs.purchasePrice * (inputs.downPaymentPercent / 100))
        inputs.mortgageRate (y * 12) 30) ∧
    (∀ years' : ℤ, years ≤ years' →
      (calculateNetWorth inputs years')[y]? =
        (calculateNetWorth inputs years)[y]?) := by
  obtain ⟨y', rfl⟩ : ∃ y', y = y' + 1 := ⟨y - 1, by omega⟩
  constructor
  · obtain ⟨r, hr, hy, hv, hb, hc⟩ :=
      calcLoop_get inputs _ _ _ years.toNat 1 y' _ (by omega)
    refine ⟨r, ?_, ?_⟩
    · simp only [calculateNetWorth, List.getElem?_cons_succ]
      exact hr
    · rw [hb, Nat.add_comm 1 y']
  · intro years' hy'
    simp only [calculateNetWorth, List.getElem?_cons_succ]
    exact calcLoop_get_stable inputs _ _ _ y' years.toNat years'.toNat 1 _
      (by omega) (by omega)

/-- C5 witness: year 1 of a one-year horizon on the test scenario taxes the
year-0 assessment. -/
theorem property_tax_prior_year_witness :
    (∃ r, (calculateNetWorth scenarioInputs (1 : ℤ))[1]? = some r ∧
      r.annualOwnershipCost =
        calculateMonthlyMortgage
          (scenarioInputs.purchasePrice -
            scenarioInputs.purchasePrice * (scenarioInputs.downPaymentPercent / 100))
          scenarioInputs.mortgageRate 30 * 12 +
        scenarioInputs.purchasePrice * (1.02 : ℚ) ^ (1 - 1) *
          scenarioInputs.propertyTaxRate +
        scenarioInputs.hoaMonthly * 12 + r.homeValue * scenarioInputs.maintenanceRate +
        getAnnualInsurance scenarioInputs r.homeValue) ∧
    (∀ (pp rate : ℚ) (j : ℕ),
      calculateProp13Tax pp j rate = pp * (1.02 : ℚ) ^ j * rate) :=
  property_tax_prior_year scenarioInputs (1 : ℤ) 1 (le_refl 1) (by norm_num)

/-- C7 witness: year 1 of a two-year horizon on the test scenario, and its
stability under longer horizons. -/
theorem amortization_term_thirty_witness :
    (∃ r, (calculateNetWorth scenarioInputs (2 : ℤ))[1]? = some r ∧
      r.mortgageBalance = calculateMortgageBalance
        (scenarioInputs.purchasePrice -
          scenarioInputs.purchasePrice * (scenarioInputs.downPaymentPercent / 100))
        scenarioInputs.mortgageRate (1 * 12) 30) ∧
    (∀ years' : ℤ, (2 : ℤ) ≤ years' →
      (calculateNetWorth scenarioInputs years')[1]? =
        (calculateNetWorth scenarioInputs (2 : ℤ))[1]?) :=
  amortization_term_thirty scenarioInputs (2 : ℤ) 1 (le_refl 1) (by norm_num)
